import Mathlib

/-!
Shallow embedding of `translatorBot.py`: the configuration loader (module
startup, lines 17-39), the translation relay `get_translation` (lines 47-75)
and the event dispatcher `on_message` (lines 84-139).  External collaborators
(the two translation providers and the platform's message fetch) are passed
in as explicit environments describing the outcome of each external call;
the reply send is modelled as the produced reply text (the platform contract
treats sends as succeeding).
-/

namespace TranslatorBot

/-! ## Python string primitives, modelled on lists of characters -/

/-- Python `str.lower()` (ASCII model). -/
def pyLowerL (l : List Char) : List Char := l.map Char.toLower

/-- Python `str.upper()` (ASCII model). -/
def pyUpper (s : String) : String := ⟨s.data.map Char.toUpper⟩

/-- Python `str.startswith(p)`. -/
def startsWithL : List Char → List Char → Bool
  | _, [] => true
  | [], _ :: _ => false
  | a :: as, b :: bs => a == b && startsWithL as bs

/-- Python `s.split(' ', 1)`: split on the FIRST literal space character
only; the second component is `none` when the string has no space, i.e. when
`len(parts) < 2`. -/
def splitOnceSpace : List Char → List Char × Option (List Char)
  | [] => ([], none)
  | c :: cs =>
    if c = ' ' then ([], some cs)
    else
      let r := splitOnceSpace cs
      (c :: r.1, r.2)

/-- Characters removed by Python `str.strip()`. -/
def pyIsSpace (c : Char) : Bool :=
  c = ' ' || c = '\t' || c = '\n' || c = '\r' || c = '\x0b' || c = '\x0c'

/-- Python `str.strip()`. -/
def pyStripL (l : List Char) : List Char :=
  ((l.dropWhile pyIsSpace).reverse.dropWhile pyIsSpace).reverse

/-- Digit run of a Python integer literal: digits with single underscores
allowed between digits (Python `int(str)` accepts `1_2` but not `_1`, `1_`
or `1__2`). -/
def pyDigitsGo : List Char → Nat → Option Nat
  | [], acc => some acc
  | '_' :: c :: cs, acc =>
    if c.isDigit then pyDigitsGo cs (acc * 10 + (c.toNat - 48)) else none
  | '_' :: [], _ => none
  | c :: cs, acc =>
    if c.isDigit then pyDigitsGo cs (acc * 10 + (c.toNat - 48)) else none

/-- Nonempty digit run starting with a digit. -/
def pyDigits? : List Char → Option Nat
  | [] => none
  | c :: cs => if c.isDigit then pyDigitsGo cs (c.toNat - 48) else none

/-- Python `int(s)` for an already-stripped string: optional sign then a
digit run; `none` models the `ValueError`. -/
def pyInt? (s : String) : Option Int :=
  match s.data with
  | '+' :: rest => (pyDigits? rest).map Int.ofNat
  | '-' :: rest => (pyDigits? rest).map (fun n => -(Int.ofNat n))
  | l => (pyDigits? l).map Int.ofNat


/-! ## Configuration loader (module startup, lines 17-39) -/

def wlMissingError : String := "ERROR: WHITELISTED_SERVER_IDS not found in .env file."

def wlFormatError : String :=
  "ERROR: WHITELISTED_SERVER_IDS in .env file must be a comma-separated list of numbers."

def tokenMissingError : String := "ERROR: DISCORD_TOKEN not found in .env file."

/-- Line 23: `{int(s.strip()) for s in whitelisted_servers_str.split(',')}`;
`none` models the `ValueError` caught at line 24. -/
def parseIdList : List String → Option (List Int)
  | [] => some []
  | t :: ts =>
    match pyInt? (String.mk (pyStripL t.data)), parseIdList ts with
    | some i, some rest => some (i :: rest)
    | _, _ => none

/-- Result of the module-level startup code: either the process exits with a
printed error, or it proceeds to construct the platform client with the
loaded configuration. -/
inductive StartupResult where
  | exited (msg : String)
  | running (token : String) (serverIds : List Int)
deriving DecidableEq

/-- Module startup, lines 17-39: read the token and allowlist, validate, and
only then proceed (line 39 constructs the client; line 143 opens the network
connection).  `token`/`wlStr` are `os.getenv` results (`none` = unset). -/
def startup (token : Option String) (wlStr : Option String) : StartupResult :=
  match wlStr with
  | none => .exited wlMissingError
  | some w =>
    if w = "" then .exited wlMissingError
    else
      match parseIdList (w.split (· = ',')) with
      | none => .exited wlFormatError
      | some ids =>
        match token with
        | none => .exited tokenMissingError
        | some t => .running t ids


/-! ## Translation relay `get_translation` (lines 47-75) -/

/-- Outcome of one provider call: `translator.translate(text)` either
returns a value (possibly `None` or the empty string) or raises. -/
inductive ProvRes where
  | ok (s : Option String)
  | err (e : String)
deriving DecidableEq

/-- A provider, applied to (source, target, text): deep_translator's
`GoogleTranslator(source=..., target=...) .translate(text)` and likewise
`MyMemoryTranslator`. -/
def Provider : Type := String → String → String → ProvRes

/-- Python truthiness of an `Optional[str]` value. -/
def pyTruthy : Option String → Bool
  | none => false
  | some s => !(s == "")

def emptyNotice : String := "The message to translate is empty."

/-- Result of `get_translation` plus which providers were actually called. -/
structure TransResult where
  result : Option String
  googleCalled : Bool
  memoryCalled : Bool
deriving DecidableEq

/-- Lines 66-75: the MyMemoryTranslator fallback step (reached only after
Google raised or returned a falsy value). -/
def mymemoryStep (m : ProvRes) : TransResult :=
  match m with
  | .ok t => if pyTruthy t then ⟨t, true, true⟩ else ⟨none, true, true⟩
  | .err _ => ⟨none, true, true⟩

/-- Lines 47-75: empty text returns the fixed notice; otherwise try
GoogleTranslator with `source='auto'`, `target=target_language`; on an
exception or falsy result fall back to MyMemoryTranslator with the same
parameters; if both fail return `None`. -/
def get_translation (text target_language : String)
    (google mymemory : Provider) : TransResult :=
  if text = "" then ⟨some emptyNotice, false, false⟩
  else
    match google "auto" target_language text with
    | .ok s => if pyTruthy s then ⟨s, true, false⟩ else mymemoryStep (mymemory "auto" target_language text)
    | .err _ => mymemoryStep (mymemory "auto" target_language text)


/-! ## Event dispatcher `on_message` (lines 84-139) -/

/-- The referenced message as returned by `channel.fetch_message`. -/
structure FetchedMsg where
  content : String
  authorMention : String
deriving DecidableEq

/-- Outcome of `await message.channel.fetch_message(...)`: a message
(the code additionally guards against `None`), or one of the platform
exceptions `discord.NotFound` / `discord.Forbidden`, or any other
exception. -/
inductive FetchRes where
  | ok (m : Option FetchedMsg)
  | notFound
  | forbidden
  | otherErr (e : String)
deriving DecidableEq

/-- Environment of one event: the outcome of the fetch and the two provider
behaviours. -/
structure Env where
  fetch : FetchRes
  google : Provider
  mymemory : Provider

/-- An inbound message event, with the fields `on_message` reads. -/
structure MessageEvent where
  authorIsBot : Bool
  guildId : Option Int
  content : String
  referenceMessageId : Option Nat
deriving DecidableEq

/-- Exceptions that can arise inside the `try` block (lines 110-131). -/
inductive PyExn where
  | notFound
  | forbidden
  | other (e : String)
deriving DecidableEq

/-- Message of the `AttributeError` raised at line 123 when
`message.guild.name` is evaluated with `message.guild = None` (direct
message). -/
def attrErrNoneGuildName : String :=
  "\x27NoneType\x27 object has no attribute \x27name\x27"

def usageMsg : String := "Usage: `/translate <language_code>` when replying to a message."

def invalidCodeMsg (code : String) : String :=
  "Invalid language code: `" ++ code ++ "`. Please use a 2-letter ISO 639-1 code."

def couldNotRetrieveMsg : String :=
  "Could not retrieve the original message you replied to. It might be too old or deleted."

def noTextMsg : String := "The message you replied to has no text content to translate."

def notFoundReplyMsg : String := "The message you replied to could not be found."

def forbiddenReplyMsg : String :=
  "I don\x27t have permissions to read the message you replied to."

def internalErrorMsg (e : String) : String :=
  "An internal error occurred: " ++ e ++ ". Please try again later."

def bothFailedMsg (code : String) : String :=
  "Sorry, I couldn\x27t translate that message to `" ++ code ++
    "`. Both translation services failed or returned no result."

def successMsg (mention code translated : String) : String :=
  "Translation of " ++ mention ++ "\x27s message to `" ++ pyUpper code ++
    "`:\n>>> " ++ translated

def cmdToken : String := "/translate"

/-- Line 96: `message.reference and message.reference.message_id` (a
message id of 0 is falsy). -/
def isReply (e : MessageEvent) : Bool :=
  match e.referenceMessageId with
  | some i => i != 0
  | none => false

/-- Line 91: `message.guild and message.guild.id not in WHITELISTED_SERVER_IDS`. -/
def guildBlocked (wl : List Int) (g : Option Int) : Bool :=
  match g with
  | some gid => !(wl.contains gid)
  | none => false

/-- Line 106: valid iff exactly 2 characters, all alphabetic. -/
def validLangCode (l : List Char) : Bool := l.length == 2 && l.all Char.isAlpha

/-- Output of the `try` body when no exception escapes it: the reply text
and which providers were called. -/
structure BodyOut where
  replyText : String
  googleCalled : Bool
  memoryCalled : Bool
deriving DecidableEq

/-- Lines 111-131, the body of the `try` block: fetch the referenced
message (its platform exceptions propagate to the handlers), guard against
`None` and empty content, evaluate the line-123 debug string (which raises
`AttributeError` when the event has no guild), call the relay, and reply
with the result or the both-failed message. -/
def tryBlock (e : MessageEvent) (env : Env) (targetLang : String) :
    Except PyExn BodyOut :=
  match env.fetch with
  | .notFound => .error .notFound
  | .forbidden => .error .forbidden
  | .otherErr msg => .error (.other msg)
  | .ok none => .ok ⟨couldNotRetrieveMsg, false, false⟩
  | .ok (some rm) =>
    if rm.content = "" then .ok ⟨noTextMsg, false, false⟩
    else
      match e.guildId with
      | none => .error (.other attrErrNoneGuildName)
      | some _ =>
        let t := get_translation rm.content targetLang env.google env.mymemory
        if pyTruthy t.result then
          .ok ⟨successMsg rm.authorMention targetLang ((t.result).getD ""),
                t.googleCalled, t.memoryCalled⟩
        else
          .ok ⟨bothFailedMsg targetLang, t.googleCalled, t.memoryCalled⟩

/-- Observable effect of handling one event: the reply sent (if any),
whether `fetch_message` was invoked, and which providers were called. -/
structure DispatchResult where
  reply : Option String
  fetched : Bool
  googleCalled : Bool
  memoryCalled : Bool
deriving DecidableEq

/-- Terminal no-op: no reply, no fetch, no provider call. -/
def noop : DispatchResult := ⟨none, false, false, false⟩

/-- Lines 133-139: the `except` clauses, each mapped to its user-visible
reply. -/
def handleExn : PyExn → String
  | .notFound => notFoundReplyMsg
  | .forbidden => forbiddenReplyMsg
  | .other e => internalErrorMsg e

/-- Lines 84-139: the whole `on_message` handler.  Self-authored events and
disallowed-guild events are dropped (lines 88-93); only replies whose
lower-cased text starts with `/translate` are inspected (lines 96-98); the
argument is split off on the first space (line 99) and validated (lines
104-108); then the `try` block runs with its exceptions handled (lines
110-139). -/
def on_message (wl : List Int) (e : MessageEvent) (env : Env) : DispatchResult :=
  if e.authorIsBot then noop
  else if guildBlocked wl e.guildId then noop
  else if isReply e then
    if startsWithL (pyLowerL e.content.data) cmdToken.data then
      match (splitOnceSpace (pyLowerL e.content.data)).2 with
      | none => ⟨some usageMsg, false, false, false⟩
      | some rest =>
        if validLangCode (pyStripL rest) then
          match tryBlock e env (String.mk (pyStripL rest)) with
          | .ok b => ⟨some b.replyText, true, b.googleCalled, b.memoryCalled⟩
          | .error x => ⟨some (handleExn x), true, false, false⟩
        else ⟨some (invalidCodeMsg (String.mk (pyStripL rest))), false, false, false⟩
    else noop
  else noop

/-- The handler viewed from outside the dispatcher boundary: an exception
value here would be one escaping `on_message`.  Structurally identical to
`on_message`, with the `try` block's errors routed through the `except`
clauses (lines 133-139). -/
def on_messageExc (wl : List Int) (e : MessageEvent) (env : Env) :
    Except PyExn DispatchResult :=
  if e.authorIsBot then .ok noop
  else if guildBlocked wl e.guildId then .ok noop
  else if isReply e then
    if startsWithL (pyLowerL e.content.data) cmdToken.data then
      match (splitOnceSpace (pyLowerL e.content.data)).2 with
      | none => .ok ⟨some usageMsg, false, false, false⟩
      | some rest =>
        if validLangCode (pyStripL rest) then
          match tryBlock e env (String.mk (pyStripL rest)) with
          | .ok b => .ok ⟨some b.replyText, true, b.googleCalled, b.memoryCalled⟩
          | .error x => .ok ⟨some (handleExn x), true, false, false⟩
        else .ok ⟨some (invalidCodeMsg (String.mk (pyStripL rest))), false, false, false⟩
    else .ok noop
  else .ok noop

/-! ## Helper definitions and lemmas -/

/-- A provider call failed in the sense of lines 60/70: it raised, or its
value is falsy (Python `if translated_text:` not taken). -/
def provFails : ProvRes → Bool
  | .ok s => !pyTruthy s
  | .err _ => true

/-- The value a provider call returned (none if it raised). -/
def provValue : ProvRes → Option String
  | .ok s => s
  | .err _ => none

theorem parseIdList_none_of_mem {t : String} {ts : List String}
    (ht : t ∈ ts) (hf : pyInt? (String.mk (pyStripL t.data)) = none) :
    parseIdList ts = none := by
  induction ts with
  | nil => cases ht
  | cons x xs ih =>
    rcases List.mem_cons.mp ht with rfl | hmem
    · simp [parseIdList, hf]
    · cases hx : pyInt? (String.mk (pyStripL x.data)) <;>
        simp [parseIdList, hx, ih hmem]

theorem startsWithL_append (p r : List Char) : startsWithL (p ++ r) p = true := by
  induction p with
  | nil => rw [List.nil_append]; cases r <;> rfl
  | cons c cs ih => simp [startsWithL, ih]

theorem splitOnceSpace_append (p r : List Char) (hp : ' ' ∉ p) :
    splitOnceSpace (p ++ ' ' :: r) = (p, some r) := by
  induction p with
  | nil => simp [splitOnceSpace]
  | cons c cs ih =>
    have hc : ¬ (c = ' ') := fun h => hp (h ▸ List.mem_cons_self c cs)
    simp [splitOnceSpace, hc, ih (fun h => hp (List.mem_cons_of_mem _ h))]

theorem pyIsSpace_eq_false_of_isAlpha {c : Char} (h : c.isAlpha = true) :
    pyIsSpace c = false := by
  cases hw : pyIsSpace c
  · rfl
  · exfalso
    unfold pyIsSpace at hw
    simp only [Bool.or_eq_true, decide_eq_true_eq] at hw
    rcases hw with ((((h1 | h1) | h1) | h1) | h1) | h1 <;> subst h1 <;>
      exact absurd h (by decide)

theorem dropWhile_all_false {p : Char → Bool} {l : List Char}
    (h : ∀ c ∈ l, p c = false) : l.dropWhile p = l := by
  induction l with
  | nil => rfl
  | cons c cs ih =>
    rw [List.dropWhile_cons]
    simp [h c (List.mem_cons_self c cs)]

theorem pyStripL_of_alpha {l : List Char} (h : l.all Char.isAlpha = true) :
    pyStripL l = l := by
  have hall : ∀ c ∈ l, pyIsSpace c = false := fun c hc =>
    pyIsSpace_eq_false_of_isAlpha (List.all_eq_true.mp h c hc)
  unfold pyStripL
  rw [dropWhile_all_false hall,
    dropWhile_all_false (fun c hc => hall c (List.mem_reverse.mp hc)),
    List.reverse_reverse]

theorem mymemoryStep_googleCalled (m : ProvRes) :
    (mymemoryStep m).googleCalled = true := by
  rcases m with t | me
  · by_cases ht : pyTruthy t = true <;> simp [mymemoryStep, ht]
  · rfl

theorem googleCalled_of_nonempty (text lang : String) (google mymemory : Provider)
    (h : text ≠ "") :
    (get_translation text lang google mymemory).googleCalled = true := by
  rcases hg : google "auto" lang text with s | ge
  · by_cases hs : pyTruthy s = true <;>
      simp [get_translation, h, hg, hs, mymemoryStep_googleCalled]
  · simp [get_translation, h, hg, mymemoryStep_googleCalled]

/-! ## Claims -/

/-- C4: for every target language code (and any provider behaviours),
calling the translation relay with empty text returns the fixed
empty-message notice — not the absence signal `none` — and calls neither
provider (lines 52-53 return before any provider call). -/
theorem get_translation_empty (lang : String) (google mymemory : Provider) :
    get_translation "" lang google mymemory =
      ⟨some emptyNotice, false, false⟩ := rfl

/-- C3: for non-empty text the relay always attempts the primary provider
(with `source="auto"`, `target=lang`, as fixed in the definition); the
secondary provider is attempted if and only if the primary raised or
returned a falsy value; if the primary succeeds its value is returned and
the secondary is not called; if the primary fails and the secondary
succeeds the secondary's value is returned; if both fail the result is the
absence signal `none`. -/
theorem get_translation_fallback (text lang : String)
    (google mymemory : Provider) (h : text ≠ "") :
    (get_translation text lang google mymemory).googleCalled = true
    ∧ ((get_translation text lang google mymemory).memoryCalled = true
        ↔ provFails (google "auto" lang text) = true)
    ∧ (provFails (google "auto" lang text) = false →
        get_translation text lang google mymemory
          = ⟨provValue (google "auto" lang text), true, false⟩)
    ∧ (provFails (google "auto" lang text) = true →
        provFails (mymemory "auto" lang text) = false →
        (get_translation text lang google mymemory).result
          = provValue (mymemory "auto" lang text))
    ∧ (provFails (google "auto" lang text) = true →
        provFails (mymemory "auto" lang text) = true →
        (get_translation text lang google mymemory).result = none) := by
  rcases hg : google "auto" lang text with s | ge <;>
    rcases hm : mymemory "auto" lang text with u | me
  · by_cases hs : pyTruthy s = true <;> by_cases hu : pyTruthy u = true <;>
      simp [get_translation, h, hg, hm, hs, hu, provFails, provValue, mymemoryStep]
  · by_cases hs : pyTruthy s = true <;>
      simp [get_translation, h, hg, hm, hs, provFails, provValue, mymemoryStep]
  · by_cases hu : pyTruthy u = true <;>
      simp [get_translation, h, hg, hm, hu, provFails, provValue, mymemoryStep]
  · simp [get_translation, h, hg, hm, provFails, provValue, mymemoryStep]

theorem get_translation_fallback_witness :
    (get_translation "hello" "fr" (fun _ _ _ => ProvRes.err "boom")
        (fun _ _ _ => ProvRes.ok (some "bonjour"))).result = some "bonjour" := by
  have h := get_translation_fallback "hello" "fr"
    (fun _ _ _ => ProvRes.err "boom") (fun _ _ _ => ProvRes.ok (some "bonjour"))
    (by decide)
  exact (h.2.2.2.1 (by decide) (by decide)).trans (by decide)

/-- C5: whenever the token is unset, or the allowlist variable is unset or
empty, or some comma-separated allowlist token fails to parse as an integer
after stripping, startup exits with a reported error — the `running` state,
which is the only one that constructs the platform client, is never
reached. -/
theorem startup_config_error (token wlStr : Option String)
    (h : token = none ∨ wlStr = none ∨ wlStr = some "" ∨
      ∃ w t, wlStr = some w ∧ t ∈ w.split (· = ',') ∧
        pyInt? (String.mk (pyStripL t.data)) = none) :
    ∃ msg, startup token wlStr = .exited msg := by
  rcases h with rfl | rfl | rfl | ⟨w, t, rfl, hmem, hfail⟩
  · cases wlStr with
    | none => exact ⟨_, rfl⟩
    | some w =>
      by_cases hw : w = ""
      · subst hw; exact ⟨_, rfl⟩
      · cases hp : parseIdList (w.split (· = ',')) with
        | none => exact ⟨wlFormatError, by simp [startup, hw, hp]⟩
        | some ids => exact ⟨tokenMissingError, by simp [startup, hw, hp]⟩
  · exact ⟨_, rfl⟩
  · exact ⟨_, rfl⟩
  · have hp := parseIdList_none_of_mem hmem hfail
    by_cases hw : w = ""
    · subst hw; exact ⟨_, rfl⟩
    · exact ⟨wlFormatError, by simp [startup, hw, hp]⟩

theorem startup_config_error_witness :
    ∃ msg, startup none (some "123") = StartupResult.exited msg :=
  startup_config_error none (some "123") (Or.inl rfl)

/-- C8: an event authored by the bot itself, or carrying a guild identity
not present in the allowlist, produces the terminal no-op: no reply, no
fetch, no provider call — regardless of its text content (lines 88-93 run
before any command inspection). -/
theorem filtered_no_action (wl : List Int) (e : MessageEvent) (env : Env)
    (h : e.authorIsBot = true ∨ ∃ g, e.guildId = some g ∧ g ∉ wl) :
    on_message wl e env = noop := by
  rcases h with hb | ⟨g, hg, hni⟩
  · simp [on_message, hb]
  · cases hbot : e.authorIsBot with
    | true => simp [on_message, hbot]
    | false =>
      have hb : guildBlocked wl e.guildId = true := by
        simp [guildBlocked, hg, hni]
      simp [on_message, hbot, hb]

theorem filtered_no_action_witness :
    on_message [5] ⟨false, some 6, "/translate fr", some 1⟩
      ⟨FetchRes.notFound, fun _ _ _ => ProvRes.err "x", fun _ _ _ => ProvRes.err "x"⟩
      = noop :=
  filtered_no_action [5] ⟨false, some 6, "/translate fr", some 1⟩
    ⟨FetchRes.notFound, fun _ _ _ => ProvRes.err "x", fun _ _ _ => ProvRes.err "x"⟩
    (Or.inr ⟨6, rfl, by decide⟩)


/-- C6: a reply event that reaches the argument parse and splits into two
parts, whose second part after stripping is not a valid 2-letter alphabetic
code, gets the invalid-language-code reply naming the rejected code, with
no fetch and no provider call (lines 104-108 return before the `try`
block). -/
theorem invalid_code_rejected (wl : List Int) (e : MessageEvent) (env : Env)
    (rest : List Char)
    (hbot : e.authorIsBot = false)
    (hguild : guildBlocked wl e.guildId = false)
    (hreply : isReply e = true)
    (hcmd : startsWithL (pyLowerL e.content.data) cmdToken.data = true)
    (hsplit : (splitOnceSpace (pyLowerL e.content.data)).2 = some rest)
    (hinvalid : validLangCode (pyStripL rest) = false) :
    on_message wl e env =
      ⟨some (invalidCodeMsg (String.mk (pyStripL rest))), false, false, false⟩ := by
  simp [on_message, hbot, hguild, hreply, hcmd, hsplit, hinvalid]

theorem invalid_code_rejected_witness :
    on_message [] ⟨false, none, "/translate f", some 1⟩
      ⟨FetchRes.notFound, fun _ _ _ => ProvRes.err "x", fun _ _ _ => ProvRes.err "x"⟩
      = ⟨some (invalidCodeMsg "f"), false, false, false⟩ := by
  have h := invalid_code_rejected []
    ⟨false, none, "/translate f", some 1⟩
    ⟨FetchRes.notFound, fun _ _ _ => ProvRes.err "x", fun _ _ _ => ProvRes.err "x"⟩
    ['f'] rfl rfl rfl (by decide) (by decide) (by decide)
  exact h.trans (by decide)

/-- C2: no exception escapes the dispatcher boundary: viewed from outside,
handling any event in any environment yields `Except.ok` of the terminal
result of `on_message` (a logged no-op or a user-visible reply, covering
the usage-message and invalid-code paths as instances of the universal
statement) — even though the `try` body itself can raise, as the second
conjunct exhibits. -/
theorem on_message_no_escape :
    (∀ wl e env, on_messageExc wl e env = Except.ok (on_message wl e env))
    ∧ (∃ err,
        tryBlock ⟨false, none, "/translate fr", some 1⟩
          ⟨FetchRes.notFound, fun _ _ _ => ProvRes.err "x",
            fun _ _ _ => ProvRes.err "x"⟩ "fr" = Except.error err) := by
  constructor
  · intro wl e env
    unfold on_messageExc on_message
    repeat' split
    all_goals rfl
  · exact ⟨PyExn.notFound, rfl⟩

/-- C1 (evaluation at the failing input): a direct-message reply event with
the valid command `/translate fr`, whose referenced message is fetched
successfully with non-empty text, does NOT reach `get_translation`
(`googleCalled = false`): line 123 evaluates `message.guild.name` with
`message.guild = None`, raising `AttributeError`, which the generic handler
turns into the internal-error reply. -/
theorem dm_valid_command_internal_error :
    on_message [] ⟨false, none, "/translate fr", some 1⟩
      ⟨FetchRes.ok (some ⟨"hello", "@alice"⟩),
        fun _ _ _ => ProvRes.ok (some "bonjour"),
        fun _ _ _ => ProvRes.ok (some "ciao")⟩ =
      ⟨some (internalErrorMsg attrErrNoneGuildName), true, false, false⟩ := by
  decide

/-- C7 counterexample: a successfully retrieved null message does NOT yield
the "no text content to translate" reply — line 114 replies with the
distinct "Could not retrieve the original message" text, so the claim's
grouping of null with empty text under the no-text reply is false. -/
theorem fetch_null_distinct_reply :
    (on_message [5] ⟨false, some 5, "/translate fr", some 1⟩
        ⟨FetchRes.ok none, fun _ _ _ => ProvRes.err "x",
          fun _ _ _ => ProvRes.err "x"⟩).reply = some couldNotRetrieveMsg
    ∧ couldNotRetrieveMsg ≠ noTextMsg := by
  constructor
  · decide
  · decide

/-- C7 amended: for every valid command event the fetch is mapped to FOUR
distinguishable user-visible outcomes: platform not-found → the "could not
be found" reply; forbidden → the lack-of-read-permission reply; a
successfully retrieved null message → the "could not retrieve" reply; a
retrieved message with empty text → the "no text content to translate"
reply; and only a retrieved message with non-empty text proceeds to
translation. -/
theorem fetch_outcome_mapping (wl : List Int) (e : MessageEvent) (env : Env)
    (rest : List Char)
    (hbot : e.authorIsBot = false)
    (hguild : guildBlocked wl e.guildId = false)
    (hreply : isReply e = true)
    (hcmd : startsWithL (pyLowerL e.content.data) cmdToken.data = true)
    (hsplit : (splitOnceSpace (pyLowerL e.content.data)).2 = some rest)
    (hvalid : validLangCode (pyStripL rest) = true) :
    (env.fetch = .notFound →
      on_message wl e env = ⟨some notFoundReplyMsg, true, false, false⟩)
    ∧ (env.fetch = .forbidden →
      on_message wl e env = ⟨some forbiddenReplyMsg, true, false, false⟩)
    ∧ (env.fetch = .ok none →
      on_message wl e env = ⟨some couldNotRetrieveMsg, true, false, false⟩)
    ∧ (∀ rm, env.fetch = .ok (some rm) → rm.content = "" →
      on_message wl e env = ⟨some noTextMsg, true, false, false⟩)
    ∧ ((on_message wl e env).googleCalled = true →
      ∃ rm, env.fetch = .ok (some rm) ∧ rm.content ≠ "") := by
  refine ⟨?_, ?_, ?_, ?_, ?_⟩
  · intro hf
    simp [on_message, hbot, hguild, hreply, hcmd, hsplit, hvalid, tryBlock, hf,
      handleExn]
  · intro hf
    simp [on_message, hbot, hguild, hreply, hcmd, hsplit, hvalid, tryBlock, hf,
      handleExn]
  · intro hf
    simp [on_message, hbot, hguild, hreply, hcmd, hsplit, hvalid, tryBlock, hf]
  · intro rm hf hc
    simp [on_message, hbot, hguild, hreply, hcmd, hsplit, hvalid, tryBlock, hf, hc]
  · intro hgc
    rcases hf : env.fetch with m | _ | _ | msg
    · rcases m with _ | rm
      · simp [on_message, hbot, hguild, hreply, hcmd, hsplit, hvalid, tryBlock,
          hf] at hgc
      · by_cases hc : rm.content = ""
        · simp [on_message, hbot, hguild, hreply, hcmd, hsplit, hvalid, tryBlock,
            hf, hc] at hgc
        · exact ⟨rm, rfl, hc⟩
    · simp [on_message, hbot, hguild, hreply, hcmd, hsplit, hvalid, tryBlock,
        hf, handleExn] at hgc
    · simp [on_message, hbot, hguild, hreply, hcmd, hsplit, hvalid, tryBlock,
        hf, handleExn] at hgc
    · simp [on_message, hbot, hguild, hreply, hcmd, hsplit, hvalid, tryBlock,
        hf, handleExn] at hgc

theorem fetch_outcome_mapping_witness :
    on_message [5] ⟨false, some 5, "/translate fr", some 1⟩
      ⟨FetchRes.notFound, fun _ _ _ => ProvRes.err "x",
        fun _ _ _ => ProvRes.err "x"⟩
      = ⟨some notFoundReplyMsg, true, false, false⟩ := by
  have h := fetch_outcome_mapping [5] ⟨false, some 5, "/translate fr", some 1⟩
    ⟨FetchRes.notFound, fun _ _ _ => ProvRes.err "x", fun _ _ _ => ProvRes.err "x"⟩
    ['f', 'r'] rfl (by decide) rfl (by decide) (by decide) (by decide)
  exact h.1 rfl

/-- C9 counterexample: an event whose lower-cased text is the command token
followed by a TAB and the valid code `fr` does not proceed past the
usage-message check — line 99 splits on the literal space character only,
finds fewer than two parts, and replies with the usage message without
fetching or translating. -/
theorem tab_separator_usage_reply :
    on_message [] ⟨false, none, "/translate\tfr", some 1⟩
      ⟨FetchRes.ok (some ⟨"hello", "@alice"⟩),
        fun _ _ _ => ProvRes.ok (some "bonjour"),
        fun _ _ _ => ProvRes.err "x"⟩ =
      ⟨some usageMsg, false, false, false⟩ := by
  decide

/-- C9 amended: for every reply event whose lower-cased text begins with
the command token followed by a SPACE character (the only separator the
split recognizes) and a valid 2-letter code, the parse splits the text on
that first space into two parts and the event proceeds past the
usage-message check, reaching the original-message fetch. -/
theorem space_separated_code_proceeds (wl : List Int) (e : MessageEvent)
    (env : Env) (code : List Char)
    (hbot : e.authorIsBot = false)
    (hguild : guildBlocked wl e.guildId = false)
    (hreply : isReply e = true)
    (hcontent : pyLowerL e.content.data = cmdToken.data ++ ' ' :: code)
    (hlen : code.length = 2)
    (halpha : code.all Char.isAlpha = true) :
    (splitOnceSpace (pyLowerL e.content.data)).2 = some code
    ∧ (on_message wl e env).fetched = true := by
  have hsplit : splitOnceSpace (pyLowerL e.content.data) = (cmdToken.data, some code) := by
    rw [hcontent]
    exact splitOnceSpace_append _ _ (by decide)
  have hcmd : startsWithL (pyLowerL e.content.data) cmdToken.data = true := by
    rw [hcontent]
    exact startsWithL_append _ _
  have hvalid : validLangCode (pyStripL code) = true := by
    rw [pyStripL_of_alpha halpha]
    simp [validLangCode, hlen, halpha]
  have hred : on_message wl e env =
      (match tryBlock e env (String.mk (pyStripL code)) with
        | .ok b => ⟨some b.replyText, true, b.googleCalled, b.memoryCalled⟩
        | .error x => ⟨some (handleExn x), true, false, false⟩) := by
    simp [on_message, hbot, hguild, hreply, hcmd, hsplit, hvalid]
  refine ⟨by rw [hsplit], ?_⟩
  rw [hred]
  rcases tryBlock e env (String.mk (pyStripL code)) with b | x <;> rfl

theorem space_separated_code_proceeds_witness :
    (splitOnceSpace (pyLowerL ("/translate fr").data)).2 = some ['f', 'r']
    ∧ (on_message [5] ⟨false, some 5, "/translate fr", some 1⟩
        ⟨FetchRes.ok (some ⟨"hello", "@alice"⟩),
          fun _ _ _ => ProvRes.ok (some "bonjour"),
          fun _ _ _ => ProvRes.err "x"⟩).fetched = true :=
  space_separated_code_proceeds [5] ⟨false, some 5, "/translate fr", some 1⟩
    ⟨FetchRes.ok (some ⟨"hello", "@alice"⟩),
      fun _ _ _ => ProvRes.ok (some "bonjour"),
      fun _ _ _ => ProvRes.err "x"⟩
    ['f', 'r'] rfl (by decide) rfl (by decide) (by decide) (by decide)

/-- C10: command recognition only tests that the lower-cased text starts
with the string `/translate` (line 98), so a reply event whose text is the
token immediately followed by extra non-space characters, a space and a
valid 2-letter code is treated as a well-formed command: in an allowed
guild, with the referenced message fetched successfully with non-empty
text, the dispatcher fetches and invokes the translation relay. -/
theorem loose_cmd_match_translates (wl : List Int) (e : MessageEvent)
    (env : Env) (extra code : List Char) (g : Int) (rm : FetchedMsg)
    (hbot : e.authorIsBot = false)
    (hguild : e.guildId = some g)
    (hmem : g ∈ wl)
    (hreply : isReply e = true)
    (hcontent : pyLowerL e.content.data = cmdToken.data ++ extra ++ ' ' :: code)
    (hnospace : ' ' ∉ extra)
    (hlen : code.length = 2)
    (halpha : code.all Char.isAlpha = true)
    (hfetch : env.fetch = .ok (some rm))
    (hne : rm.content ≠ "") :
    (on_message wl e env).fetched = true
    ∧ (on_message wl e env).googleCalled = true := by
  have hgb : guildBlocked wl e.guildId = false := by
    simp [guildBlocked, hguild, hmem]
  have hnosp : ' ' ∉ cmdToken.data ++ extra := by
    intro hc
    rcases List.mem_append.mp hc with hc | hc
    · exact absurd hc (by decide)
    · exact hnospace hc
  have hsplit : splitOnceSpace (pyLowerL e.content.data)
      = (cmdToken.data ++ extra, some code) := by
    rw [hcontent]
    exact splitOnceSpace_append _ _ hnosp
  have hcmd : startsWithL (pyLowerL e.content.data) cmdToken.data = true := by
    rw [hcontent, List.append_assoc]
    exact startsWithL_append _ _
  have hvalid : validLangCode (pyStripL code) = true := by
    rw [pyStripL_of_alpha halpha]
    simp [validLangCode, hlen, halpha]
  have hgc := googleCalled_of_nonempty rm.content (String.mk (pyStripL code))
    env.google env.mymemory hne
  have hred : on_message wl e env =
      (match tryBlock e env (String.mk (pyStripL code)) with
        | .ok b => ⟨some b.replyText, true, b.googleCalled, b.memoryCalled⟩
        | .error x => ⟨some (handleExn x), true, false, false⟩) := by
    simp [on_message, hbot, hgb, hreply, hcmd, hsplit, hvalid]
  rw [hred]
  by_cases ht : pyTruthy (get_translation rm.content (String.mk (pyStripL code))
      env.google env.mymemory).result = true
  · simp [tryBlock, hfetch, hne, hguild, ht, hgc]
  · simp [tryBlock, hfetch, hne, hguild, ht, hgc]

theorem loose_cmd_match_translates_witness :
    (on_message [5] ⟨false, some 5, "/translatexyz fr", some 1⟩
        ⟨FetchRes.ok (some ⟨"hello", "@alice"⟩),
          fun _ _ _ => ProvRes.ok (some "bonjour"),
          fun _ _ _ => ProvRes.err "x"⟩).fetched = true
    ∧ (on_message [5] ⟨false, some 5, "/translatexyz fr", some 1⟩
        ⟨FetchRes.ok (some ⟨"hello", "@alice"⟩),
          fun _ _ _ => ProvRes.ok (some "bonjour"),
          fun _ _ _ => ProvRes.err "x"⟩).googleCalled = true :=
  loose_cmd_match_translates [5] ⟨false, some 5, "/translatexyz fr", some 1⟩
    ⟨FetchRes.ok (some ⟨"hello", "@alice"⟩),
      fun _ _ _ => ProvRes.ok (some "bonjour"),
      fun _ _ _ => ProvRes.err "x"⟩
    ['x', 'y', 'z'] ['f', 'r'] 5 ⟨"hello", "@alice"⟩
    rfl rfl (by decide) rfl (by decide) (by decide) (by decide) (by decide)
    rfl (by decide)

end TranslatorBot
